import Mathlib

/-!
Shallow embedding of the 2D physics sandbox (`python-sandbox2.py`) and proofs
about its operations.  Numeric values are modelled over `ℚ`: Python float
literals are read as the decimal numbers they denote, and `math.pi` is the
exact rational value of the IEEE-754 double that Python uses.  Mouse
positions delivered by `pygame.mouse.get_pos()` are integer pixel
coordinates and are modelled as `ℤ × ℤ`.
-/

set_option autoImplicit false

/-- Simulation modes of the sandbox (`class Mode`, source lines 32-36). -/
inductive Mode where
  | MECHANICS
  | ELECTRICITY
  | FLUID
  | THERMAL
  deriving DecidableEq

/-- RGB colour triples; the named constants of source lines 21-29. -/
abbrev Color := Nat × Nat × Nat

def WHITE : Color := (255, 255, 255)

def BLACK : Color := (0, 0, 0)

def YELLOW : Color := (255, 255, 0)

def GRAY : Color := (150, 150, 150)

def LIGHT_BLUE : Color := (173, 216, 230)

def BROWN : Color := (139, 69, 19)

def BLUE : Color := (0, 0, 255)

/-- Window constants, source line 16. -/
def WIDTH : ℕ := 1000

def HEIGHT : ℕ := 700

/-- Gravity constant, source line 18. -/
def GRAVITY : ℚ := 981

/-- The exact rational value of the IEEE-754 double `math.pi` used by the
source for circle masses. -/
def piF : ℚ := 884279719003555 / 281474976710656

/-- Keys of the `MATERIALS` dict (source lines 50-55).  The UI only ever
looks up these four names, so the string keys are modelled as an
enumeration. -/
inductive MaterialName where
  | Wood
  | Metal
  | Ice
  | Rubber
  deriving DecidableEq

/-- Material properties (`class Material`, source lines 39-47).  The
constructor always sets `temperature` to room temperature 20.0. -/
structure Material where
  name : MaterialName
  density : ℚ
  friction : ℚ
  elasticity : ℚ
  color : Color
  thermal_conductivity : ℚ
  temperature : ℚ
  deriving DecidableEq

/-- The static material table (source lines 50-55). -/
def MATERIALS : MaterialName → Material
  | .Wood => ⟨.Wood, 1/2, 7/10, 2/5, BROWN, 1/5, 20⟩
  | .Metal => ⟨.Metal, 1, 2/5, 1/2, GRAY, 9/10, 20⟩
  | .Ice => ⟨.Ice, 9/10, 1/10, 9/10, LIGHT_BLUE, 1/2, 20⟩
  | .Rubber => ⟨.Rubber, 7/10, 9/10, 9/10, BLACK, 1/10, 20⟩

/-- Electrical component kinds (`class ComponentType`, source lines 58-64). -/
inductive ComponentType where
  | WIRE
  | BATTERY
  | RESISTOR
  | BULB
  | SWITCH
  | CAPACITOR
  deriving DecidableEq

/-- Electrical component record (`class ElectricalComponent`, source lines
66-89).  `connections` holds references to other components; the source
never populates it, and it is modelled as a list of component indices.  The
Python attribute `on` is spelt `isOn` here because `on` is reserved in
Lean. -/
structure ElectricalComponent where
  type : ComponentType
  position : ℚ × ℚ
  rotation : ℚ
  connections : List ℕ
  size : ℚ × ℚ
  value : ℚ
  isOn : Bool
  charge : ℚ
  deriving DecidableEq

/-- Constructor `ElectricalComponent.__init__` (source lines 67-89): default
size/value/on/charge, then type-specific value and size. -/
def mkElectricalComponent (ctype : ComponentType) (position : ℚ × ℚ) :
    ElectricalComponent :=
  let base : ElectricalComponent :=
    { type := ctype, position := position, rotation := 0, connections := [],
      size := (50, 20), value := 0, isOn := true, charge := 0 }
  match ctype with
  | .BATTERY => { base with value := 9, size := (40, 20) }
  | .RESISTOR => { base with value := 100, size := (50, 10) }
  | .BULB => { base with value := 50, size := (20, 20) }
  | .CAPACITOR => { base with value := 1/100, size := (30, 20) }
  | _ => base

/-- Fluid material strings accepted by `Particle.__init__` (source lines
100-108). -/
inductive FluidMaterial where
  | Water
  | Air
  | Oil
  deriving DecidableEq

/-- Fluid particle (`class Particle`, source lines 92-108). -/
structure Particle where
  position : ℚ × ℚ
  velocity : ℚ × ℚ
  material : FluidMaterial
  temperature : ℚ
  size : ℚ
  color : Color
  density : ℚ
  deriving DecidableEq

/-- Constructor `Particle.__init__`: colour and density derived from the
material. -/
def mkParticle (position : ℚ × ℚ) (material : FluidMaterial) : Particle :=
  let cd : Color × ℚ :=
    match material with
    | .Water => (BLUE, 1)
    | .Air => (WHITE, 1/10)
    | .Oil => (YELLOW, 4/5)
  { position := position, velocity := (0, 0), material := material,
    temperature := 20, size := 3, color := cd.1, density := cd.2 }

/-- An axis-aligned `pygame.Rect` with integer coordinates. -/
structure Rect where
  x : ℤ
  y : ℤ
  w : ℤ
  h : ℤ
  deriving DecidableEq

/-- The `pygame.Rect.collidepoint` test: a point along the right or bottom
edge is not inside the rectangle. -/
def Rect.collidepoint (r : Rect) (p : ℤ × ℤ) : Bool :=
  decide (r.x ≤ p.1 ∧ p.1 < r.x + r.w ∧ r.y ≤ p.2 ∧ p.2 < r.y + r.h)

/-- Fluid-mode obstacles (source lines 471-487): the plain dict made by
`add_obstacle` or the larger dict made by `add_floating_object`. -/
inductive Obstacle where
  | plain (rect : Rect) (rotation : ℚ)
  | floating (rect : Rect) (velocity : ℚ × ℚ) (material : MaterialName)
      (density : ℚ) (rotation : ℚ) (angular_velocity : ℚ)
  deriving DecidableEq

/-- Thermal entities (source lines 489-519): all members of the one
`heat_sources` list, discriminated in the source by which dict fields are
present (`position`/`radius` for point sources, `rect` for
conductors/insulators). -/
inductive HeatEntity where
  | pointSource (position : ℤ × ℤ) (radius : ℚ) (temperature : ℚ) (power : ℚ)
  | rectEntity (rect : Rect) (material : MaterialName) (temperature : ℚ)
      (conductivity : ℚ)
  deriving DecidableEq

/-- Temperature field of a heat entity. -/
def HeatEntity.temperature : HeatEntity → ℚ
  | .pointSource _ _ t _ => t
  | .rectEntity _ _ t _ => t

/-- Replace only the temperature field of a heat entity, keeping every other
field. -/
def HeatEntity.withTemperature : HeatEntity → ℚ → HeatEntity
  | .pointSource pos r _ p, t => .pointSource pos r t p
  | .rectEntity rect m _ c, t => .rectEntity rect m t c

/-- Rigid body data used by the sandbox: mass, moment and position as set in
`add_circle`/`add_box` (velocity is zeroed by `pymunk.Body.__init__`). -/
structure Body where
  mass : ℚ
  moment : ℚ
  position : ℚ × ℚ
  velocity : ℚ × ℚ
  deriving DecidableEq

/-- The pymunk moment formula `moment_for_circle(mass, r1, r2)` with zero
offset: `m * (r1^2 + r2^2) / 2`. -/
def moment_for_circle (mass innerR outerR : ℚ) : ℚ :=
  mass * (innerR * innerR + outerR * outerR) / 2

/-- The pymunk moment formula `moment_for_box(mass, (w, h))`:
`m * (w^2 + h^2) / 12`. -/
def moment_for_box (mass : ℚ) (size : ℚ × ℚ) : ℚ :=
  mass * (size.1 * size.1 + size.2 * size.2) / 12

/-- Collision shapes attached to bodies.  `pymunk.Circle` carries a radius;
`pymunk.Poly` carries its local vertex list.  The source also stores
`friction`, `elasticity` and the ad-hoc attributes `color` and
`temperature` on every shape. -/
inductive Shape where
  | circle (radius : ℚ) (friction : ℚ) (elasticity : ℚ) (color : Color)
      (temperature : ℚ)
  | poly (vertices : List (ℚ × ℚ)) (friction : ℚ) (elasticity : ℚ)
      (color : Color) (temperature : ℚ)
  deriving DecidableEq

/-- Local vertices of `pymunk.Poly.create_box(body, (w, h))`. -/
def boxVertices (w h : ℚ) : List (ℚ × ℚ) :=
  [(-(w/2), -(h/2)), (-(w/2), h/2), (w/2, h/2), (w/2, -(h/2))]

/-- Everything registered with the pymunk space: the static boundary
segments and the body/shape pairs added by the mechanics mode. -/
inductive SpaceItem where
  | segment (a : ℚ × ℚ) (b : ℚ × ℚ) (radius : ℚ) (friction : ℚ)
      (elasticity : ℚ)
  | bodyShape (body : Body) (shape : Shape)
  deriving DecidableEq

/-- The three boundary segments built by `create_boundaries` (source lines
174-191): floor, left wall, right wall, all with friction and elasticity
0.5. -/
def create_boundaries : List SpaceItem :=
  [ .segment (0, 650) (1000, 650) 5 (1/2) (1/2),
    .segment (0, 0) (0, 700) 5 (1/2) (1/2),
    .segment (1000, 0) (1000, 700) 5 (1/2) (1/2) ]

/-- Entry of the mechanics `objects` list (source line 383): a dict with
body, shape, a type string and the material name. -/
structure MechObject where
  body : Body
  shape : Shape
  type : String
  material : MaterialName
  deriving DecidableEq

/-- The sandbox state fields touched by the operations under study: the
current mode and each mode's stored state (source lines 126-153).  The
UI-selection fields (`selected_object`, `selected_component`, `pendulum`,
`spring`, ...) are not read or written by `set_mode`, `add_circle`,
`add_box`, `set_temperature` or `handle_thermal_click` and are omitted.
`wires` is never populated by the source and is modelled as `List Unit`;
`temperature_map` is the `(WIDTH//10) x (HEIGHT//10) = 100 x 70` numpy
grid. -/
structure SandboxState where
  mode : Mode
  spaceItems : List SpaceItem
  gravity : ℚ × ℚ
  objects : List MechObject
  selected_material : MaterialName
  components : List ElectricalComponent
  wires : List Unit
  circuit_solved : Bool
  particles : List Particle
  obstacles : List Obstacle
  heat_sources : List HeatEntity
  temperature_map : Fin 100 → Fin 70 → ℚ

/-- The state built by `PhysicsSandbox.__init__` (source lines 112-172),
restricted to the modelled fields. -/
def initSandbox : SandboxState :=
  { mode := .MECHANICS, spaceItems := create_boundaries, gravity := (0, 981),
    objects := [], selected_material := .Wood, components := [], wires := [],
    circuit_solved := false, particles := [], obstacles := [],
    heat_sources := [], temperature_map := fun _ _ => 20 }

/-- Method `set_mode` (source lines 338-356): store the new mode, then clear
that mode's own collections (for mechanics, also rebuild the pymunk space
with fresh boundaries and default gravity; for thermal, also reset the
grid to 20 everywhere).  No other field is touched. -/
def set_mode (s : SandboxState) (mode : Mode) : SandboxState :=
  match mode with
  | .MECHANICS =>
      { s with mode := mode, spaceItems := create_boundaries,
               gravity := (0, GRAVITY), objects := [] }
  | .ELECTRICITY =>
      { s with mode := mode, components := [], wires := [],
               circuit_solved := false }
  | .FLUID =>
      { s with mode := mode, particles := [], obstacles := [] }
  | .THERMAL =>
      { s with mode := mode, heat_sources := [],
               temperature_map := fun _ _ => 20 }

/-- Method `add_circle` (source lines 364-383): radius 20,
`mass = math.pi * radius * radius * density`, body at
`(WIDTH//2, HEIGHT//3) = (500, 233)`, a circle shape carrying the
material's friction/elasticity/colour/temperature, appended to both the
space and the `objects` list. -/
def add_circle (s : SandboxState) : SandboxState :=
  let material := MATERIALS s.selected_material
  let radius : ℚ := 20
  let mass := piF * radius * radius * material.density
  let body : Body :=
    { mass := mass, moment := moment_for_circle mass 0 radius,
      position := (500, 233), velocity := (0, 0) }
  let shape : Shape :=
    .circle radius material.friction material.elasticity material.color
      material.temperature
  { s with
    spaceItems := s.spaceItems ++ [.bodyShape body shape],
    objects := s.objects ++
      [{ body := body, shape := shape, type := "circle",
         material := s.selected_material }] }

/-- Method `add_box` (source lines 385-404): size `(40, 40)`,
`mass = w * h * density`, body at `(500, 233)`, a box polygon shape,
appended to both the space and the `objects` list. -/
def add_box (s : SandboxState) : SandboxState :=
  let material := MATERIALS s.selected_material
  let size : ℚ × ℚ := (40, 40)
  let mass := size.1 * size.2 * material.density
  let body : Body :=
    { mass := mass, moment := moment_for_box mass size,
      position := (500, 233), velocity := (0, 0) }
  let shape : Shape :=
    .poly (boxVertices size.1 size.2) material.friction material.elasticity
      material.color material.temperature
  { s with
    spaceItems := s.spaceItems ++ [.bodyShape body shape],
    objects := s.objects ++
      [{ body := body, shape := shape, type := "box",
         material := s.selected_material }] }

/-- Slider callback `set_temperature` (source lines 547-549): assign the
slider value to the `temperature` field of every entity in the
`heat_sources` list, whatever its kind. -/
def set_temperature (value : ℚ) : List HeatEntity → List HeatEntity
  | [] => []
  | .pointSource pos r _ p :: rest =>
      .pointSource pos r value p :: set_temperature value rest
  | .rectEntity rect m _ c :: rest =>
      .rectEntity rect m value c :: set_temperature value rest

/-- Squared euclidean distance between integer pixel points. -/
def dist2 (p q : ℤ × ℤ) : ℤ :=
  (p.1 - q.1) * (p.1 - q.1) + (p.2 - q.2) * (p.2 - q.2)

/-- The point-source hit test of `handle_thermal_click`:
`math.sqrt(dx^2 + dy^2) < radius`.  Over the rationals the square root is
encoded by squaring: for `d ≥ 0`, `sqrt d < r` holds iff `0 < r` and
`d < r^2`. -/
def pointSourceHit (mouse : ℤ × ℤ) (position : ℤ × ℤ) (radius : ℚ) : Bool :=
  decide (0 < radius ∧ ((dist2 mouse position : ℤ) : ℚ) < radius * radius)

/-- Method `handle_thermal_click` (source lines 697-708): walk the
`heat_sources` list; a point source whose radius strictly covers the click
gets `temperature += 10`; a rect entity whose `pygame.Rect` collides with
the click gets `temperature += 10`; every other entity is left as is. -/
def handle_thermal_click (mouse : ℤ × ℤ) : List HeatEntity → List HeatEntity
  | [] => []
  | .pointSource pos r t p :: rest =>
      (if pointSourceHit mouse pos r then HeatEntity.pointSource pos r (t + 10) p
       else .pointSource pos r t p) :: handle_thermal_click mouse rest
  | .rectEntity rect m t c :: rest =>
      (if rect.collidepoint mouse then HeatEntity.rectEntity rect m (t + 10) c
       else .rectEntity rect m t c) :: handle_thermal_click mouse rest

/-- Python runtime errors that the embedded handlers can raise. -/
inductive PyError where
  | attributeError
  | zeroDivisionError
  | nameError
  deriving DecidableEq

/-- Names of the methods defined inside `class PhysicsSandbox` (source lines
111-708).  The functions `point_in_shape` and `point_in_polygon` (source
lines 709-737) are NOT in this list: their `def` lines sit at column 0,
outside the class body, so they are module-level functions and never become
attributes of the class or its instances. -/
def physicsSandboxMethods : List String :=
  ["__init__", "create_boundaries", "create_buttons", "create_sliders",
   "set_mode", "set_material", "set_fluid", "add_circle", "add_box",
   "add_pendulum", "add_spring", "add_component", "add_obstacle",
   "add_floating_object", "add_heat_source", "add_thermal_conductor",
   "add_thermal_insulator", "set_gravity", "set_friction", "set_voltage",
   "set_resistance", "set_viscosity", "set_flow_rate", "set_temperature",
   "set_conductivity", "handle_events", "handle_mechanics_click",
   "handle_mechanics_motion", "handle_electricity_click",
   "handle_electricity_motion", "handle_fluid_click", "handle_thermal_click"]

/-- Edge list the `for i in range(n)` loop of `point_in_polygon` walks:
pairs `(vertices[i], vertices[(i+1) % n])`. -/
def edgesOf (vertices : List (ℚ × ℚ)) : List ((ℚ × ℚ) × (ℚ × ℚ)) :=
  vertices.zip (vertices.rotate 1)

/-- One loop iteration of `point_in_polygon` (source lines 727-736) as a
pure toggle decision, mirroring the nested guards exactly.  The branch
returning `true` at `y1 = y2` mirrors the short-circuit disjunction
`y1 == y2 or x <= xinters` in the source. -/
def edge_toggle (point v1 v2 : ℚ × ℚ) : Bool :=
  let x := point.1
  let y := point.2
  let x1 := v1.1
  let y1 := v1.2
  let x2 := v2.1
  let y2 := v2.2
  if y > min y1 y2 then
    if y ≤ max y1 y2 then
      if x ≤ max x1 x2 then
        if y1 = y2 then true
        else decide (x ≤ (y - y1) * (x2 - x1) / (y2 - y1) + x1)
      else false
    else false
  else false

/-- Module-level function `point_in_polygon` (source lines 722-737): ray
casting over the ordered vertex list, flipping `inside` on each crossing
edge. -/
def point_in_polygon (point : ℚ × ℚ) (vertices : List (ℚ × ℚ)) : Bool :=
  (edgesOf vertices).foldl
    (fun inside e => if edge_toggle point e.1 e.2 then !inside else inside)
    false

/-- Checked rational division, modelling Python `/` raising
`ZeroDivisionError`. -/
def divQ (a b : ℚ) : Except PyError ℚ :=
  if b = 0 then .error .zeroDivisionError else .ok (a / b)

/-- Instrumented loop of `point_in_polygon` modelling Python's variable
semantics: `xinters` starts unbound (`none`) and persists across
iterations; reading it while unbound is a `NameError`, and the division is
checked.  The disjunction `y1 == y2 or x <= xinters` short-circuits, so
`xinters` is only read in the `y1 ≠ y2` branch, as in Python. -/
def pipGo (point : ℚ × ℚ) :
    List ((ℚ × ℚ) × (ℚ × ℚ)) → Option ℚ → Bool → Except PyError Bool
  | [], _, inside => .ok inside
  | (v1, v2) :: rest, xinters0, inside =>
      let x := point.1
      let y := point.2
      let x1 := v1.1
      let y1 := v1.2
      let x2 := v2.1
      let y2 := v2.2
      if y > min y1 y2 then
        if y ≤ max y1 y2 then
          if x ≤ max x1 x2 then do
            let xinters1 ←
              if y1 = y2 then pure xinters0
              else do
                let q ← divQ ((y - y1) * (x2 - x1)) (y2 - y1)
                pure (some (q + x1))
            let cond ←
              if y1 = y2 then pure true
              else
                match xinters1 with
                | none => Except.error PyError.nameError
                | some xv => pure (decide (x ≤ xv))
            pipGo point rest xinters1 (if cond then !inside else inside)
          else pipGo point rest xinters0 inside
        else pipGo point rest xinters0 inside
      else pipGo point rest xinters0 inside

/-- The instrumented `point_in_polygon`: runs the loop with `xinters`
initially unbound and `inside = False`. -/
def point_in_polygon_run (point : ℚ × ℚ) (vertices : List (ℚ × ℚ)) :
    Except PyError Bool :=
  pipGo point (edgesOf vertices) none false

/-- Module-level function `point_in_shape` (source lines 709-720), as the
pure function its body denotes: circles test squared distance against
squared radius (boundary inclusive); polygons defer to
`point_in_polygon` on the shape's vertex list; anything else is `False`. -/
def point_in_shape (point : ℚ × ℚ) (body : Body) (shape : Shape) : Bool :=
  match shape with
  | .circle radius _ _ _ _ =>
      let dx := point.1 - body.position.1
      let dy := point.2 - body.position.2
      decide (dx * dx + dy * dy ≤ radius * radius)
  | .poly vertices _ _ _ _ => point_in_polygon point vertices

/-- The mechanics-click state the handler reads and writes:
`selected_object`, `applying_force` and `force_start_pos` (source lines
130-133, 645-655). -/
structure MechClickState where
  selected_object : Option MechObject
  applying_force : Bool
  force_start_pos : Option (ℚ × ℚ)
  deriving DecidableEq

/-- Selection loop of `handle_mechanics_click` (source lines 647-650): for
each tracked object the source evaluates `self.point_in_shape(...)`.
Attribute lookup on `self` searches the instance and then the class;
`point_in_shape` is not among `physicsSandboxMethods`, so the lookup is
modelled by consulting that table and raising `AttributeError` when it
fails. -/
def mechSelectLoop (mouse : ℚ × ℚ) (st : MechClickState) :
    List MechObject → Except PyError (Option MechClickState)
  | [] => .ok none
  | obj :: rest =>
      if physicsSandboxMethods.contains "point_in_shape" then
        if point_in_shape mouse obj.body obj.shape then
          .ok (some { st with selected_object := some obj })
        else mechSelectLoop mouse st rest
      else .error .attributeError

/-- Method `handle_mechanics_click` (source lines 645-655): try to select an
object under the mouse; otherwise, when the right button is held, start
applying a force from the click position. -/
def handle_mechanics_click (objects : List MechObject) (mouse : ℤ × ℤ)
    (rightPressed : Bool) (st : MechClickState) :
    Except PyError MechClickState :=
  let p : ℚ × ℚ := ((mouse.1 : ℚ), (mouse.2 : ℚ))
  match mechSelectLoop p st objects with
  | .error e => .error e
  | .ok (some st1) => .ok st1
  | .ok none =>
      if rightPressed then
        .ok { st with applying_force := true, force_start_pos := some p }
      else .ok st

/-- Modelled from the spec: the repository source contains no circuit-solve
code (no `Solve`/`solve_circuit` function exists in the file), so the sum
of battery EMFs is taken from the spec's words: "sum EMF across all
batteries". -/
def totalEMF (cs : List ElectricalComponent) : ℚ :=
  (cs.filter (fun c => decide (c.type = ComponentType.BATTERY))).foldl
    (fun acc c => acc + c.value) 0

/-- Modelled from the spec: "sum resistance across all resistor/bulb
components". -/
def totalResistance (cs : List ElectricalComponent) : ℚ :=
  (cs.filter (fun c =>
      decide (c.type = ComponentType.RESISTOR ∨ c.type = ComponentType.BULB))).foldl
    (fun acc c => acc + c.value) 0

/-- Modelled from the spec: "if any switch is off, current = 0 for the whole
circuit". -/
def anySwitchOff (cs : List ElectricalComponent) : Bool :=
  cs.any (fun c => decide (c.type = ComponentType.SWITCH) && !c.isOn)

/-- Modelled from the spec: the circuit current of `CircuitSolver.Solve`,
missing from the source.  "if any switch is off, current = 0 ...; else
current = totalEMF / totalResistance (... if totalResistance == 0, report
current = 0, a fault state, not infinite)". -/
def solveCurrent (cs : List ElectricalComponent) : ℚ :=
  if anySwitchOff cs then 0
  else if totalResistance cs = 0 then 0
  else totalEMF cs / totalResistance cs

/-- Modelled from the spec: `Solve() -> (voltages, currents)` per component;
every resistor-like component carries the circuit current and a voltage
drop `current * resistance`, batteries report their EMF. -/
def solve (cs : List ElectricalComponent) : List (ℚ × ℚ) :=
  let i := solveCurrent cs
  cs.map (fun c =>
    if c.type = ComponentType.BATTERY then (c.value, i)
    else if c.type = ComponentType.RESISTOR ∨ c.type = ComponentType.BULB then
      (i * c.value, i)
    else (0, i))

/-- The per-mode stored state representation, used to express state
isolation across modes. -/
inductive ModeState where
  | mech (spaceItems : List SpaceItem) (gravity : ℚ × ℚ)
      (objects : List MechObject)
  | elec (components : List ElectricalComponent) (wires : List Unit)
      (circuit_solved : Bool)
  | fluid (particles : List Particle) (obstacles : List Obstacle)
  | thermal (heat_sources : List HeatEntity)
      (temperature_map : Fin 100 → Fin 70 → ℚ)

/-- Project the stored state representation of one mode out of the sandbox
state. -/
def modeState : Mode → SandboxState → ModeState
  | .MECHANICS, s => .mech s.spaceItems s.gravity s.objects
  | .ELECTRICITY, s => .elec s.components s.wires s.circuit_solved
  | .FLUID, s => .fluid s.particles s.obstacles
  | .THERMAL, s => .thermal s.heat_sources s.temperature_map

/-- The object/entity set of a mode is empty (and, for thermal, the grid is
reset to 20 everywhere). -/
def clearedFor : Mode → SandboxState → Prop
  | .MECHANICS, s => s.objects = []
  | .ELECTRICITY, s => s.components = [] ∧ s.wires = [] ∧
      s.circuit_solved = false
  | .FLUID, s => s.particles = [] ∧ s.obstacles = []
  | .THERMAL, s => s.heat_sources = [] ∧
      ∀ (i : Fin 100) (j : Fin 70), s.temperature_map i j = 20

/-- Footprint of a heat entity, as the click handler tests it: a point
source covers the clicks at distance strictly under its radius (the
source compares `math.sqrt(dx^2+dy^2) < radius`, encoded squared), a rect
entity covers the clicks inside its half-open pygame rectangle. -/
def footprintContains (mouse : ℤ × ℤ) : HeatEntity → Prop
  | .pointSource pos r _ _ =>
      0 < r ∧ ((dist2 mouse pos : ℤ) : ℚ) < r * r
  | .rectEntity rect _ _ _ =>
      rect.x ≤ mouse.1 ∧ mouse.1 < rect.x + rect.w ∧
      rect.y ≤ mouse.2 ∧ mouse.2 < rect.y + rect.h

instance (mouse : ℤ × ℤ) (e : HeatEntity) :
    Decidable (footprintContains mouse e) := by
  cases e <;> simp only [footprintContains] <;> infer_instance

/-- Reference even-odd crossing test, written from the spec's words (§4.1):
the standard algorithm counts an edge as crossing the rightward ray from
the query point iff the point's ordinate lies in the edge's half-open
vertical span, the edge is not exactly horizontal (such edges are treated
as never crossing), and the intersection abscissa is at or to the right of
the point. -/
def spec_edge_crossing (point v1 v2 : ℚ × ℚ) : Bool :=
  let x := point.1
  let y := point.2
  let x1 := v1.1
  let y1 := v1.2
  let x2 := v2.1
  let y2 := v2.2
  decide (min y1 y2 < y ∧ y ≤ max y1 y2 ∧ y1 ≠ y2 ∧
    x ≤ (y - y1) * (x2 - x1) / (y2 - y1) + x1)

/-- Reference even-odd point-in-polygon from the spec's words: flip `inside`
once per crossing edge, starting outside. -/
def spec_point_in_polygon (point : ℚ × ℚ) (vertices : List (ℚ × ℚ)) : Bool :=
  (edgesOf vertices).foldl
    (fun inside e =>
      if spec_edge_crossing point e.1 e.2 then !inside else inside)
    false

/-- When the query ordinate lies in the edge's vertical span, the
intersection abscissa lies between the edge endpoints' abscissas, hence
under their maximum. -/
theorem xinters_le_max (x1 y1 x2 y2 y : ℚ) (h1 : min y1 y2 < y)
    (h2 : y ≤ max y1 y2) (h3 : y1 ≠ y2) :
    (y - y1) * (x2 - x1) / (y2 - y1) + x1 ≤ max x1 x2 := by
  rcases h3.lt_or_lt with hlt | hlt
  · rw [min_eq_left hlt.le] at h1
    rw [max_eq_right hlt.le] at h2
    have hd : (0 : ℚ) < y2 - y1 := by linarith
    rcases le_total x1 x2 with hx | hx
    · have h4 : (y - y1) * (x2 - x1) / (y2 - y1) ≤ x2 - x1 := by
        rw [div_le_iff₀ hd]
        nlinarith
      have h5 := le_max_right x1 x2
      linarith
    · have h4 : (y - y1) * (x2 - x1) / (y2 - y1) ≤ 0 :=
        div_nonpos_iff.mpr (Or.inr ⟨by nlinarith, by linarith⟩)
      have h5 := le_max_left x1 x2
      linarith
  · rw [min_eq_right hlt.le] at h1
    rw [max_eq_left hlt.le] at h2
    have hd : y2 - y1 < 0 := by linarith
    rcases le_total x1 x2 with hx | hx
    · have h4 : (y - y1) * (x2 - x1) / (y2 - y1) ≤ x2 - x1 := by
        rw [div_le_iff_of_neg hd]
        nlinarith
      have h5 := le_max_right x1 x2
      linarith
    · have h4 : (y - y1) * (x2 - x1) / (y2 - y1) ≤ 0 :=
        div_nonpos_iff.mpr (Or.inl ⟨by nlinarith, by linarith⟩)
      have h5 := le_max_left x1 x2
      linarith

/-- Per-edge agreement of the implemented toggle with the reference crossing
test. -/
theorem edge_toggle_eq_spec (point v1 v2 : ℚ × ℚ) :
    edge_toggle point v1 v2 = spec_edge_crossing point v1 v2 := by
  obtain ⟨x, y⟩ := point
  obtain ⟨x1, y1⟩ := v1
  obtain ⟨x2, y2⟩ := v2
  simp only [edge_toggle, spec_edge_crossing]
  by_cases h1 : min y1 y2 < y
  · by_cases h2 : y ≤ max y1 y2
    · by_cases h3 : y1 = y2
      · subst h3
        rw [min_self] at h1
        rw [max_self] at h2
        exact absurd (h1.trans_le h2) (lt_irrefl y1)
      · by_cases h4 : x ≤ max x1 x2
        · simp [gt_iff_lt, h1, h2, h3, h4]
        · have h5 := xinters_le_max x1 y1 x2 y2 y h1 h2 h3
          have h6 : ¬ x ≤ (y - y1) * (x2 - x1) / (y2 - y1) + x1 := by
            push_neg at h4 ⊢
            linarith
          simp [gt_iff_lt, h1, h2, h3, h4, h6]
    · simp [gt_iff_lt, h1, h2]
  · simp [gt_iff_lt, h1]

/-- The implemented fold and the reference fold agree from any starting
accumulator. -/
theorem pip_fold_congr (point : ℚ × ℚ) :
    ∀ (es : List ((ℚ × ℚ) × (ℚ × ℚ))) (acc : Bool),
      es.foldl
        (fun inside e => if edge_toggle point e.1 e.2 then !inside else inside)
        acc =
      es.foldl
        (fun inside e =>
          if spec_edge_crossing point e.1 e.2 then !inside else inside)
        acc := by
  intro es
  induction es with
  | nil => intro acc; rfl
  | cons e rest ih =>
      intro acc
      simp only [List.foldl_cons, edge_toggle_eq_spec]


/-- The instrumented loop never raises and computes the same flag as the
pure fold from any starting variable state and accumulator: the division
is only reached when `y1 ≠ y2`, and `xinters` is only read right after
being assigned. -/
theorem pipGo_eq_fold (point : ℚ × ℚ) :
    ∀ (es : List ((ℚ × ℚ) × (ℚ × ℚ))) (xi : Option ℚ) (inside : Bool),
      pipGo point es xi inside =
        .ok (es.foldl
          (fun ins e => if edge_toggle point e.1 e.2 then !ins else ins)
          inside) := by
  intro es
  induction es with
  | nil => intro xi inside; rfl
  | cons e rest ih =>
      intro xi inside
      obtain ⟨v1, v2⟩ := e
      show pipGo point ((v1, v2) :: rest) xi inside =
        .ok (List.foldl _ (if edge_toggle point v1 v2 then !inside else inside) rest)
      by_cases h1 : point.2 > min v1.2 v2.2
      · by_cases h2 : point.2 ≤ max v1.2 v2.2
        · by_cases h3 : point.1 ≤ max v1.1 v2.1
          · by_cases h4 : v1.2 = v2.2
            · exfalso
              rw [h4, min_self] at h1
              rw [h4, max_self] at h2
              exact absurd (lt_of_lt_of_le h1 h2) (lt_irrefl _)
            · have hne : v2.2 - v1.2 ≠ 0 := sub_ne_zero_of_ne (Ne.symm h4)
              have ht : edge_toggle point v1 v2 =
                  decide (point.1 ≤ (point.2 - v1.2) * (v2.1 - v1.1) / (v2.2 - v1.2) + v1.1) := by
                simp only [edge_toggle]
                rw [if_pos h1, if_pos h2, if_pos h3, if_neg h4]
              rw [ht]
              simp only [pipGo]
              rw [if_pos h1, if_pos h2, if_pos h3]
              simp only [h4, divQ, hne, if_neg, ite_false, if_false, pure_bind]
              exact ih _ _
          · have ht : edge_toggle point v1 v2 = false := by
              simp [edge_toggle, h1, h2, h3]
            rw [ht]
            simp only [pipGo]
            rw [if_pos h1, if_pos h2, if_neg h3]
            exact ih xi inside
        · have ht : edge_toggle point v1 v2 = false := by
            simp [edge_toggle, h1, h2]
          rw [ht]
          simp only [pipGo]
          rw [if_pos h1, if_neg h2]
          exact ih xi inside
      · have ht : edge_toggle point v1 v2 = false := by
          simp [edge_toggle, h1]
        rw [ht]
        simp only [pipGo]
        rw [if_neg h1]
        exact ih xi inside

/-- C4: for every polygon (convex ones included) given as an ordered vertex
list and every query point, the implemented ray-casting test
`point_in_polygon` returns exactly the same answer as the reference
even-odd crossing implementation written from the spec, so all points —
including points exactly on vertices or edges — are treated consistently
by the two. -/
theorem point_in_polygon_refines_spec (point : ℚ × ℚ)
    (vertices : List (ℚ × ℚ)) :
    point_in_polygon point vertices = spec_point_in_polygon point vertices := by
  unfold point_in_polygon spec_point_in_polygon
  exact pip_fold_congr point (edgesOf vertices) false

/-- C5: for every vertex list and every query point, running
`point_in_polygon` under Python's variable and division semantics never
raises — no `ZeroDivisionError` on horizontal edges, no `NameError` from
an unbound `xinters` — and terminates normally with the boolean computed
by the pure function. -/
theorem point_in_polygon_never_raises (point : ℚ × ℚ)
    (vertices : List (ℚ × ℚ)) :
    point_in_polygon_run point vertices =
      .ok (point_in_polygon point vertices) := by
  unfold point_in_polygon_run point_in_polygon
  exact pipGo_eq_fold point (edgesOf vertices) none false

/-- C6: for every degenerate polygon with zero or one vertex and every
query point, `point_in_polygon` reports "outside" (`false`) and its
instrumented run does not crash. -/
theorem point_in_polygon_degenerate (p v : ℚ × ℚ) :
    point_in_polygon p [] = false ∧
    point_in_polygon_run p [] = .ok false ∧
    point_in_polygon p [v] = false ∧
    point_in_polygon_run p [v] = .ok false := by
  have hrot : ([v] : List (ℚ × ℚ)).rotate 1 = [v] := List.rotate_singleton v 1
  have hedges : edgesOf [v] = [(v, v)] := by
    rw [edgesOf, hrot]
    rfl
  have htog : edge_toggle p v v = false := by
    simp only [edge_toggle, min_self]
    by_cases h1 : p.2 > v.2
    · rw [if_pos h1, max_self, if_neg (not_le_of_lt h1)]
    · rw [if_neg h1]
  refine ⟨rfl, rfl, ?_, ?_⟩
  · rw [point_in_polygon, hedges]
    simp [htog]
  · rw [point_in_polygon_run, hedges, pipGo_eq_fold]
    simp [htog]

/-- C7: switching to any mode leaves that mode with an empty object/entity
set (for thermal, also a grid reset to 20 everywhere) and leaves every
other mode's stored state representation unchanged; the shared material
table is a global constant and is untouched by construction. -/
theorem set_mode_state_isolation (s : SandboxState) (m : Mode) :
    clearedFor m (set_mode s m) ∧
    ∀ (m' : Mode), m' ≠ m → modeState m' (set_mode s m) = modeState m' s := by
  constructor
  · cases m <;> simp [set_mode, clearedFor]
  · intro m' hne
    cases m <;> cases m' <;> simp_all [set_mode, modeState]

theorem set_mode_state_isolation_witness :
    Mode.MECHANICS ≠ Mode.THERMAL ∧
    modeState Mode.MECHANICS (set_mode initSandbox Mode.THERMAL) =
      modeState Mode.MECHANICS initSandbox :=
  ⟨by decide,
   (set_mode_state_isolation initSandbox Mode.THERMAL).2 Mode.MECHANICS
     (by decide)⟩

/-- C8: `add_circle` creates a body of mass `pi * r^2 * density` for the
radius `r = 20` of the circle shape it creates, `add_box` creates a body
of mass `w * h * density` for its size `(40, 40)`, and both register the
new body/shape pair with the physics space and append the new object to
the local object list. -/
theorem add_circle_add_box_spec (s : SandboxState) :
    ∃ (cb : Body) (csh : Shape) (bb : Body) (bsh : Shape),
      (add_circle s).objects = s.objects ++
        [{ body := cb, shape := csh, type := "circle",
           material := s.selected_material }] ∧
      (add_circle s).spaceItems = s.spaceItems ++ [.bodyShape cb csh] ∧
      csh = Shape.circle 20 (MATERIALS s.selected_material).friction
        (MATERIALS s.selected_material).elasticity
        (MATERIALS s.selected_material).color
        (MATERIALS s.selected_material).temperature ∧
      cb.mass = piF * 20 * 20 * (MATERIALS s.selected_material).density ∧
      (add_box s).objects = s.objects ++
        [{ body := bb, shape := bsh, type := "box",
           material := s.selected_material }] ∧
      (add_box s).spaceItems = s.spaceItems ++ [.bodyShape bb bsh] ∧
      bb.mass = 40 * 40 * (MATERIALS s.selected_material).density := by
  refine ⟨_, _, _, _, rfl, rfl, rfl, ?_, rfl, rfl, ?_⟩
  · show piF * 20 * 20 * (MATERIALS s.selected_material).density =
      piF * 20 * 20 * (MATERIALS s.selected_material).density
    rfl
  · show 40 * 40 * (MATERIALS s.selected_material).density =
      40 * 40 * (MATERIALS s.selected_material).density
    rfl

/-- Walking the heat-source list leaves its length unchanged. -/
theorem handle_thermal_click_eq_map (mouse : ℤ × ℤ) :
    ∀ hs : List HeatEntity,
      handle_thermal_click mouse hs =
        hs.map (fun e =>
          if footprintContains mouse e
          then e.withTemperature (e.temperature + 10) else e) := by
  intro hs
  induction hs with
  | nil => rfl
  | cons e rest ih =>
      cases e with
      | pointSource pos r t p =>
          by_cases hf : footprintContains mouse (.pointSource pos r t p)
          · have hb : pointSourceHit mouse pos r = true := decide_eq_true hf
            simp [handle_thermal_click, hb, hf, ih, HeatEntity.withTemperature,
              HeatEntity.temperature]
          · have hb : pointSourceHit mouse pos r = false :=
              decide_eq_false hf
            simp [handle_thermal_click, hb, hf, ih]
      | rectEntity rect m t c =>
          by_cases hf : footprintContains mouse (.rectEntity rect m t c)
          · have hb : rect.collidepoint mouse = true := decide_eq_true hf
            simp [handle_thermal_click, hb, hf, ih, HeatEntity.withTemperature,
              HeatEntity.temperature]
          · have hb : rect.collidepoint mouse = false := decide_eq_false hf
            simp [handle_thermal_click, hb, hf, ih]

/-- Temperature after `withTemperature`. -/
theorem HeatEntity.temperature_withTemperature (e : HeatEntity) (v : ℚ) :
    (e.withTemperature v).temperature = v := by
  cases e <;> rfl

/-- C9 theorem. -/
theorem handle_thermal_click_spec (mouse : ℤ × ℤ) (hs : List HeatEntity)
    (i : ℕ) (h : i < hs.length) :
    (handle_thermal_click mouse hs).length = hs.length ∧
    ∀ (h2 : i < (handle_thermal_click mouse hs).length),
      (footprintContains mouse (hs.get ⟨i, h⟩) →
        (handle_thermal_click mouse hs).get ⟨i, h2⟩ =
          (hs.get ⟨i, h⟩).withTemperature
            ((hs.get ⟨i, h⟩).temperature + 10)) ∧
      (¬ footprintContains mouse (hs.get ⟨i, h⟩) →
        (handle_thermal_click mouse hs).get ⟨i, h2⟩ = hs.get ⟨i, h⟩) := by
  have hmap := handle_thermal_click_eq_map mouse hs
  constructor
  · rw [hmap]
    exact List.length_map _ _
  · intro h2
    constructor <;> intro hf <;>
      simp only [List.get_eq_getElem] at hf ⊢ <;>
      simp only [hmap, List.getElem_map]
    · rw [if_pos hf]
    · rw [if_neg hf]

def demoHeat : List HeatEntity := [.pointSource (500, 350) 30 200 50]

/-- C9 witness. -/
theorem handle_thermal_click_spec_witness :
    (0 : ℕ) < demoHeat.length ∧
    footprintContains (500, 350) (demoHeat.get ⟨0, by decide⟩) ∧
    (handle_thermal_click (500, 350) demoHeat).get ⟨0, by decide⟩ =
      (demoHeat.get ⟨0, by decide⟩).withTemperature
        ((demoHeat.get ⟨0, by decide⟩).temperature + 10) := by
  have h := handle_thermal_click_spec (500, 350) demoHeat 0 (by decide)
  have hf : footprintContains (500, 350) (demoHeat.get ⟨0, by decide⟩) := by
    simp only [demoHeat, List.get_eq_getElem, List.getElem_cons_zero,
      footprintContains, dist2]
    norm_num
  refine ⟨by decide, hf, (h.2 ?_).1 hf⟩
  simp [demoHeat, handle_thermal_click]

/-- The temperature slider writes every entity via `withTemperature`. -/
theorem set_temperature_eq_map (value : ℚ) :
    ∀ hs : List HeatEntity,
      set_temperature value hs = hs.map (fun e => e.withTemperature value) := by
  intro hs
  induction hs with
  | nil => rfl
  | cons e rest ih =>
      cases e <;> simp [set_temperature, HeatEntity.withTemperature, ih]

/-- C10: the thermal Temperature slider assigns `temperature = v` to every
entity in the heat-source list — point sources, conductors and insulators
alike, overwriting the 200 °C point-source default and any +10 °C click
increments — and leaves every other field of every entity unchanged. -/
theorem set_temperature_spec (value : ℚ) (hs : List HeatEntity) (i : ℕ)
    (h : i < hs.length) :
    (set_temperature value hs).length = hs.length ∧
    ∀ (h2 : i < (set_temperature value hs).length),
      (set_temperature value hs).get ⟨i, h2⟩ =
        (hs.get ⟨i, h⟩).withTemperature value ∧
      ((set_temperature value hs).get ⟨i, h2⟩).temperature = value := by
  have hmap := set_temperature_eq_map value hs
  constructor
  · simp [hmap]
  · intro h2
    simp only [List.get_eq_getElem]
    simp only [hmap, List.getElem_map]
    exact ⟨trivial, HeatEntity.temperature_withTemperature _ _⟩

def demoHeat2 : List HeatEntity :=
  [.pointSource (500, 350) 30 200 50,
   .rectEntity ⟨400, 340, 200, 20⟩ .Metal 20 (9/10),
   .rectEntity ⟨400, 340, 200, 20⟩ .Wood 20 (1/5)]

/-- C10 witness. -/
theorem set_temperature_spec_witness :
    (1 : ℕ) < demoHeat2.length ∧
    (set_temperature 100 demoHeat2).get ⟨1, by decide⟩ =
      (demoHeat2.get ⟨1, by decide⟩).withTemperature 100 ∧
    ((set_temperature 100 demoHeat2).get ⟨1, by decide⟩).temperature = 100 := by
  have h := set_temperature_spec 100 demoHeat2 1 (by decide)
  refine ⟨by decide, h.2 ?_⟩
  simp [demoHeat2, set_temperature]

/-- C1: for every component list with batteries summing to E and
resistor/bulb resistances summing to R, the modelled circuit solve yields
current 0 when any switch is off, current 0 when R = 0 (the fault state —
the total function raises no exception), and current E / R otherwise. -/
theorem solveCurrent_spec (cs : List ElectricalComponent) :
    (anySwitchOff cs = true → solveCurrent cs = 0) ∧
    (anySwitchOff cs = false → totalResistance cs = 0 → solveCurrent cs = 0) ∧
    (anySwitchOff cs = false → totalResistance cs ≠ 0 →
      solveCurrent cs = totalEMF cs / totalResistance cs) := by
  refine ⟨fun h1 => ?_, fun h1 h2 => ?_, fun h1 h2 => ?_⟩
  · simp [solveCurrent, h1]
  · simp [solveCurrent, h1, h2]
  · simp [solveCurrent, h1, h2]

def demoCircuit : List ElectricalComponent :=
  [mkElectricalComponent .BATTERY (500, 350),
   mkElectricalComponent .RESISTOR (500, 350),
   mkElectricalComponent .SWITCH (500, 350)]

/-- C1 witness: one 9 V battery, one 100 Ω resistor and one closed switch
give current 9/100 A. -/
theorem solveCurrent_spec_witness :
    anySwitchOff demoCircuit = false ∧ totalResistance demoCircuit ≠ 0 ∧
    solveCurrent demoCircuit = 9 / 100 := by
  have h1 : anySwitchOff demoCircuit = false := by
    simp [anySwitchOff, demoCircuit, mkElectricalComponent]
  have h2 : totalResistance demoCircuit = 100 := by
    simp [totalResistance, demoCircuit, mkElectricalComponent]
  have h3 := (solveCurrent_spec demoCircuit).2.2 h1 (by rw [h2]; norm_num)
  refine ⟨h1, by rw [h2]; norm_num, ?_⟩
  rw [h3, h2]
  have h4 : totalEMF demoCircuit = 9 := by
    simp [totalEMF, demoCircuit, mkElectricalComponent]
  rw [h4]

/-- C3: for every mechanics-mode click that reaches the object hit-test
loop with a non-empty tracked object list, the call `self.point_in_shape`
fails with `AttributeError` — the function is dedented out of the
`PhysicsSandbox` class — so the handler raises instead of selecting an
object. -/
theorem handle_mechanics_click_attribute_error (objects : List MechObject)
    (mouse : ℤ × ℤ) (rightPressed : Bool) (st : MechClickState)
    (h : objects ≠ []) :
    handle_mechanics_click objects mouse rightPressed st =
      .error .attributeError := by
  cases objects with
  | nil => exact absurd rfl h
  | cons o rest =>
      have hc : physicsSandboxMethods.contains "point_in_shape" = false := by
        decide
      rw [handle_mechanics_click, mechSelectLoop, hc]
      rfl

def demoMechObject : MechObject :=
  { body := { mass := piF * 20 * 20 * (1/2),
              moment := moment_for_circle (piF * 20 * 20 * (1/2)) 0 20,
              position := (500, 233), velocity := (0, 0) },
    shape := .circle 20 (7/10) (2/5) BROWN 20, type := "circle",
    material := .Wood }

/-- C3 witness. -/
theorem handle_mechanics_click_attribute_error_witness :
    ([demoMechObject] : List MechObject) ≠ [] ∧
    handle_mechanics_click [demoMechObject] (0, 0) false
      ⟨none, false, none⟩ = .error .attributeError :=
  ⟨List.cons_ne_nil _ _,
   handle_mechanics_click_attribute_error [demoMechObject] (0, 0) false
     ⟨none, false, none⟩ (List.cons_ne_nil _ _)⟩

/-- C2: the mechanics pick operation does not return the circle under the
click even though the module-level hit-test says the click is inside it:
with one Wood circle of radius 20 centred at the spawn point (500, 233)
and a click exactly there, `point_in_shape` affirms the hit, yet
`handle_mechanics_click` raises `AttributeError` instead of selecting the
circle, because it calls `self.point_in_shape` and `point_in_shape` is
dedented out of the class. -/
theorem mechanics_pick_crashes_on_circle_hit :
    point_in_shape (500, 233) demoMechObject.body demoMechObject.shape =
      true ∧
    handle_mechanics_click [demoMechObject] (500, 233) false
      ⟨none, false, none⟩ = .error .attributeError := by
  constructor
  · simp only [point_in_shape, demoMechObject]
    norm_num
  · have hc : physicsSandboxMethods.contains "point_in_shape" = false := by
      decide
    rw [handle_mechanics_click, mechSelectLoop, hc]
    rfl
